import Mathlib

/-!
Shallow embedding of `src/core/element_maybe_signal.rs` from `leptos-use`.

The file under verification defines the enum `ElementMaybeSignal<T, E>` with
variants `Static(Option<T>)`, `Dynamic(Signal<Option<T>>)` and a
`_Phantom(PhantomData<E>)` marker arm, together with accessor trait
implementations (`SignalGet`, `SignalWith`, `SignalGetUntracked`,
`SignalWithUntracked`) and a family of `From` conversions.

The leptos reactive runtime (`Signal`, `create_memo`, `Signal::derive`,
`NodeRef`) and the DOM query function (`document().query_selector`) are
external collaborators of this crate; the spec describes the capabilities the
core consumes from them.  We model them as explicit, world-indexed pure
functions: a `Signal σ α` reads a value of type `α` out of a world of type
`σ`, and may be disposed at some worlds (reading a disposed signal panics for
the non-`try` accessors and yields `none` for the `try` accessors, exactly as
in leptos).  Run-time panics are made explicit through `ReadResult`, which
distinguishes the disposed-context panic from the `unreachable!()` arm that
guards the `_Phantom` variant.
-/

namespace LeptosUse

/-- Result of an accessor call: a normal value, the panic leptos raises when a
signal is read after its owning reactive scope was disposed, or the
`unreachable!()` panic guarding the `_Phantom` arm of the enum. -/
inductive ReadResult (α : Type) where
  | ok : α → ReadResult α
  | disposedPanic : ReadResult α
  | unreachablePanic : ReadResult α
deriving DecidableEq, Repr

/-- Modelled from the spec: the reactive cell primitive consumed from the
leptos runtime.  A signal is a handle that, at each world `w : σ` of the
single-threaded runtime, either is disposed or holds a current value.
Dependency registration (tracked vs. untracked reads) is a runtime side
effect with no influence on the returned value, so the tracked and untracked
read functions below share their formulas; they are kept as separate
definitions mirroring the separate leptos trait methods. -/
structure Signal (σ : Type) (α : Type) where
  disposed : σ → Bool
  value : σ → α

/-- `Signal::get`: tracked read; panics if the signal's scope is disposed. -/
def Signal.get (s : Signal σ α) (w : σ) : ReadResult α :=
  if s.disposed w then .disposedPanic else .ok (s.value w)

/-- `Signal::try_get`: tracked read returning `none` instead of panicking. -/
def Signal.try_get (s : Signal σ α) (w : σ) : Option α :=
  if s.disposed w then none else some (s.value w)

/-- `Signal::with`: tracked closure-based read. -/
def Signal.with_fn (s : Signal σ α) (f : α → β) (w : σ) : ReadResult β :=
  if s.disposed w then .disposedPanic else .ok (f (s.value w))

/-- `Signal::try_with`. -/
def Signal.try_with (s : Signal σ α) (f : α → β) (w : σ) : Option β :=
  if s.disposed w then none else some (f (s.value w))

/-- `Signal::get_untracked`: same value as `get`, no dependency registered. -/
def Signal.get_untracked (s : Signal σ α) (w : σ) : ReadResult α :=
  if s.disposed w then .disposedPanic else .ok (s.value w)

/-- `Signal::try_get_untracked`. -/
def Signal.try_get_untracked (s : Signal σ α) (w : σ) : Option α :=
  if s.disposed w then none else some (s.value w)

/-- `Signal::with_untracked`. -/
def Signal.with_untracked (s : Signal σ α) (f : α → β) (w : σ) : ReadResult β :=
  if s.disposed w then .disposedPanic else .ok (f (s.value w))

/-- `Signal::try_with_untracked`. -/
def Signal.try_with_untracked (s : Signal σ α) (f : α → β) (w : σ) : Option β :=
  if s.disposed w then none else some (f (s.value w))

/-- The enum `ElementMaybeSignal<T, E>`.  `σ` is the runtime-world type the
embedded signals read from; `E` is the phantom target-capability type carried
by the `_Phantom` arm (it holds no runtime data, exactly like
`PhantomData<E>`). -/
inductive ElementMaybeSignal (σ T E : Type) where
  | Static : Option T → ElementMaybeSignal σ T E
  | Dynamic : Signal σ (Option T) → ElementMaybeSignal σ T E
  | _Phantom : ElementMaybeSignal σ T E

namespace ElementMaybeSignal

/-- `impl Default`: `Self::Static(None)`. -/
def default : ElementMaybeSignal σ T E := .Static none

/-- `impl Clone`: `Static(t)` clones the snapshot, `Dynamic(s)` copies the
signal handle (`*s`, signals are `Copy`), and the wildcard arm is
`unreachable!()`. -/
def clone : ElementMaybeSignal σ T E → ReadResult (ElementMaybeSignal σ T E)
  | .Static t => .ok (.Static t)
  | .Dynamic s => .ok (.Dynamic s)
  | ._Phantom => .unreachablePanic

/-- Whether the reference is in the marker arm. -/
def isPhantom : ElementMaybeSignal σ T E → Bool
  | ._Phantom => true
  | _ => false

/-- `SignalGet::get`. -/
def get : ElementMaybeSignal σ T E → σ → ReadResult (Option T)
  | .Static t, _ => .ok t
  | .Dynamic s, w => s.get w
  | ._Phantom, _ => .unreachablePanic

/-- `SignalGet::try_get`.  The Rust method returns `Option<Option<T>>`; the
wildcard arm is `unreachable!()`, a panic, so the result is wrapped in
`ReadResult` to keep that panic distinguishable from a `None` return. -/
def try_get : ElementMaybeSignal σ T E → σ → ReadResult (Option (Option T))
  | .Static t, _ => .ok (some t)
  | .Dynamic s, w => .ok (s.try_get w)
  | ._Phantom, _ => .unreachablePanic

/-- `SignalWith::with`. -/
def with_fn : ElementMaybeSignal σ T E → (Option T → O) → σ → ReadResult O
  | .Static t, f, _ => .ok (f t)
  | .Dynamic s, f, w => s.with_fn f w
  | ._Phantom, _, _ => .unreachablePanic

/-- `SignalWith::try_with` (wildcard arm is `unreachable!()`). -/
def try_with : ElementMaybeSignal σ T E → (Option T → O) → σ → ReadResult (Option O)
  | .Static t, f, _ => .ok (some (f t))
  | .Dynamic s, f, w => .ok (s.try_with f w)
  | ._Phantom, _, _ => .unreachablePanic

/-- `SignalGetUntracked::get_untracked`. -/
def get_untracked : ElementMaybeSignal σ T E → σ → ReadResult (Option T)
  | .Static t, _ => .ok t
  | .Dynamic s, w => s.get_untracked w
  | ._Phantom, _ => .unreachablePanic

/-- `SignalGetUntracked::try_get_untracked` (wildcard arm is `unreachable!()`). -/
def try_get_untracked : ElementMaybeSignal σ T E → σ → ReadResult (Option (Option T))
  | .Static t, _ => .ok (some t)
  | .Dynamic s, w => .ok (s.try_get_untracked w)
  | ._Phantom, _ => .unreachablePanic

/-- `SignalWithUntracked::with_untracked`. -/
def with_untracked : ElementMaybeSignal σ T E → (Option T → O) → σ → ReadResult O
  | .Static t, f, _ => .ok (f t)
  | .Dynamic s, f, w => s.with_untracked f w
  | ._Phantom, _, _ => .unreachablePanic

/-- `SignalWithUntracked::try_with_untracked` (wildcard arm is `unreachable!()`). -/
def try_with_untracked : ElementMaybeSignal σ T E → (Option T → O) → σ → ReadResult (Option O)
  | .Static t, f, _ => .ok (some (f t))
  | .Dynamic s, f, w => .ok (s.try_with_untracked f w)
  | ._Phantom, _, _ => .unreachablePanic

end ElementMaybeSignal

/-- The DOM query capability consumed from the environment.
`web_sys::Document::query_selector` returns `Result<Option<Element>, JsValue>`:
it can fail outright (e.g. an invalid selector) or succeed with zero matches.
`Elem` stands for `web_sys::Element`; the error payload is irrelevant to the
core, so it is `Unit`. -/
structure LookupEnv (Elem : Type) where
  query : String → Except Unit (Option Elem)

/-- `Result::unwrap_or_default` at type `Result<Option<Element>, JsValue>`:
an `Err` collapses to `Option::default() = None`. -/
def unwrapOrDefault (r : Except Unit (Option α)) : Option α :=
  match r with
  | .ok v => v
  | .error _ => none

/-- `document().query_selector(target).unwrap_or_default()`. -/
def selectorLookup (env : LookupEnv Elem) (target : String) : Option Elem :=
  unwrapOrDefault (env.query target)

namespace ElementMaybeSignal

/-- `impl From<T>`: `Static(Some(value))`. -/
def from_value (v : T) : ElementMaybeSignal σ T E := .Static (some v)

/-- `impl From<Option<T>>`: `Static(target)`. -/
def from_option (o : Option T) : ElementMaybeSignal σ T E := .Static o

/-- `impl From<&str>`:
`Static(document().query_selector(target).unwrap_or_default())` — the lookup
runs synchronously, here, at conversion time, against the construction-time
environment `env`; the result is frozen into the `Static` variant. -/
def from_str (env : LookupEnv Elem) (target : String) :
    ElementMaybeSignal σ Elem E :=
  .Static (selectorLookup env target)

/-- `impl From<String>`: identical body to `from_str` modulo the borrow. -/
def from_string (env : LookupEnv Elem) (target : String) :
    ElementMaybeSignal σ Elem E :=
  .Static (selectorLookup env target)

/-- The four `impl_from_signal_option!` conversions
(`Signal<Option<T>>`, `ReadSignal<Option<T>>`, `RwSignal<Option<T>>`,
`Memo<Option<T>>`): `Self::Dynamic(target.into())`, a passthrough of the
handle.  All four instantiations coincide in the model, where every readable
handle is a `Signal`. -/
def from_signal_option (s : Signal σ (Option T)) : ElementMaybeSignal σ T E :=
  .Dynamic s

/-- The four `impl_from_signal!` conversions (`Signal<T>`, `ReadSignal<T>`,
`RwSignal<T>`, `Memo<T>`):
`Self::Dynamic(Signal::derive(move || Some(signal.get())))`.  The derived
cell evaluates its closure at read time: it calls `signal.get()` — which
panics when the captured signal's scope is disposed — and wraps the current
value in `Some`. -/
def from_signal (sig : Signal σ T) : ElementMaybeSignal σ T E :=
  .Dynamic { disposed := sig.disposed, value := fun w => some (sig.value w) }

end ElementMaybeSignal

/-! ### The reactive-string conversion and the memo primitive

`impl From<Signal<String>>` wraps the lookup in `create_memo`:

    Self::Dynamic(
        create_memo(move |_| document().query_selector(&signal.get()).unwrap_or_default())
            .into(),
    )

The memo primitive belongs to the leptos runtime, not to this crate.
Modelled from the spec: a memoized derivation over one tracked input
recomputes its function only when the tracked input's value actually
changes; each recomputation performs exactly one lookup call.  We model the
memo's runtime cache explicitly: a `MemoState` holds the current value of the
tracked string input, the cached output, and the number of executions of the
memo function performed so far; writing to the string cell steps the state. -/

/-- Runtime cache of a memoized derivation over a single tracked input. -/
structure MemoState (α β : Type) where
  input : α
  cached : β
  execs : Nat
deriving DecidableEq, Repr

/-- Construction plus first read of the memo: one execution of `f`. -/
def memoInit (f : α → β) (a : α) : MemoState α β :=
  ⟨a, f a, 1⟩

/-- A write of `a` to the tracked input cell: if the value did not actually
change, the cache is reused and `f` is not re-executed; otherwise `f` runs
exactly once on the new value. -/
def memoWrite [DecidableEq α] (f : α → β) (st : MemoState α β) (a : α) :
    MemoState α β :=
  if a = st.input then st else ⟨a, f a, st.execs + 1⟩

/-- The memo state after a whole sequence of writes to the input cell. -/
def memoSteps [DecidableEq α] (f : α → β) :
    MemoState α β → List α → MemoState α β
  | st, [] => st
  | st, a :: ws => memoSteps f (memoWrite f st a) ws

/-- Memo state reached from initial input `a0` after the writes `ws`. -/
def memoRun [DecidableEq α] (f : α → β) (a0 : α) (ws : List α) :
    MemoState α β :=
  memoSteps f (memoInit f a0) ws

/-- The value the last write left in the input cell. -/
def lastWrite : α → List α → α
  | cur, [] => cur
  | _, a :: ws => lastWrite a ws

/-- How many writes in `ws` actually changed the input cell's value, the cell
starting at `cur`. -/
def countChanges [DecidableEq α] : α → List α → Nat
  | _, [] => 0
  | cur, a :: ws => if a = cur then countChanges cur ws else countChanges a ws + 1

namespace ElementMaybeSignal

/-- `impl From<Signal<String>>`: the reference is `Dynamic`, holding the memo
cell.  The world type for this scenario is the memo's runtime cache itself:
the string cell's current value is `st.input` and the memo cell's current
value is `st.cached`; the memo cell is alive (`create_memo` is called in the
current, live scope). -/
def from_signal_string (Elem E : Type) :
    ElementMaybeSignal (MemoState String (Option Elem)) Elem E :=
  .Dynamic { disposed := fun _ => false, value := fun st => st.cached }

end ElementMaybeSignal

/-! ### The NodeRef conversion

`impl_from_node_ref!` produces, for `$ty` in `{EventTarget, Element}`:

    Self::Dynamic(Signal::derive(move || {
        node_ref.get().map(move |el| {
            let el = el.into_any();
            let el: $ty = el.deref().clone().into();
            el
        })
    }))

`NodeRef` is a leptos forward-declared handle: a slot holding
`Option<HtmlElement<R>>`, `None` until the mounting layer binds it, readable
tracked (`node_ref.get()`), and whose binding notifies dependents like any
signal write.  We model its world as the current binding plus a version
counter that the runtime bumps on every (re)binding; a tracked dependent that
observed version `v` is notified exactly when the version has moved past `v`.
The `into_any().deref().clone().into()` chain narrowing the bound element to
the target capability type is the pure function `conv`. -/

/-- Runtime state of a forward-declared handle. -/
structure NodeRefState (R : Type) where
  binding : Option R
  version : Nat
deriving DecidableEq, Repr

/-- The unbound initial state. -/
def NodeRefState.init : NodeRefState R := ⟨none, 0⟩

/-- The mounting layer binds (or rebinds) the handle: exactly what a cell
write does — the stored value is replaced and the version is bumped, so
tracked dependents are notified. -/
def NodeRefState.load (w : NodeRefState R) (el : R) : NodeRefState R :=
  ⟨some el, w.version + 1⟩

/-- A tracked dependent that last observed version `obs` is notified
(marked stale, hence re-run by the runtime) at world `w` iff the cell has
been written since. -/
def notifiedAt (obs : Nat) (w : NodeRefState R) : Prop :=
  obs < w.version

namespace ElementMaybeSignal

/-- `impl From<NodeRef<R>>` for `ElementMaybeSignal<$ty, $ty>`: a `Dynamic`
reference over a derived cell reading the handle's current binding and
mapping the conversion over it. -/
def from_node_ref (conv : R → T) :
    ElementMaybeSignal (NodeRefState R) T T :=
  .Dynamic { disposed := fun _ => false
             value := fun w => w.binding.map conv }

end ElementMaybeSignal

/-- A sample query environment over `Elem := Nat`: `"#a"` resolves to element
`0`, every other selector matches nothing.  Used by concrete witnesses. -/
def sampleEnv : LookupEnv Nat :=
  ⟨fun s => if s = "#a" then .ok (some 0) else .ok none⟩

/-- A query environment in which every lookup fails outright. -/
def errEnv : LookupEnv Nat := ⟨fun _ => .error ()⟩

/-- A concrete live cell over the world `Option Nat`: the world is the cell's
current content, so mutating the source cell is replacing the world. -/
def natCell : Signal (Option Nat) (Option Nat) :=
  ⟨fun _ => false, fun w => w⟩

/-- A concrete cell whose owning reactive scope is disposed at every world. -/
def disposedCell : Signal Unit (Option Nat) :=
  ⟨fun _ => true, fun _ => none⟩

/-- A concrete plain (never absent) cell over the world `Nat`. -/
def plainCell : Signal Nat Nat :=
  ⟨fun _ => false, fun w => w⟩

/-! ## Memo trace lemmas -/

theorem memoSteps_append [DecidableEq α] (f : α → β) (st : MemoState α β)
    (ws : List α) (a : α) :
    memoSteps f st (ws ++ [a]) = memoWrite f (memoSteps f st ws) a := by
  induction ws generalizing st with
  | nil => rfl
  | cons b ws ih => exact ih (memoWrite f st b)

theorem memoSteps_execs [DecidableEq α] (f : α → β) (st : MemoState α β)
    (ws : List α) :
    (memoSteps f st ws).execs = st.execs + countChanges st.input ws := by
  induction ws generalizing st with
  | nil => simp [memoSteps, countChanges]
  | cons a ws ih =>
    by_cases h : a = st.input
    · simp [memoSteps, memoWrite, countChanges, h, ih]
    · simp only [memoSteps, memoWrite, countChanges, if_neg h, ih]
      omega

theorem memoSteps_input [DecidableEq α] (f : α → β) (st : MemoState α β)
    (ws : List α) :
    (memoSteps f st ws).input = lastWrite st.input ws := by
  induction ws generalizing st with
  | nil => rfl
  | cons a ws ih =>
    by_cases h : a = st.input
    · simp [memoSteps, memoWrite, h, ih, lastWrite]
    · simp [memoSteps, memoWrite, h, ih, lastWrite]

/-! ## Claim theorems -/

/-- C2: for every reference in the `Static` (Fixed) variant, each tracked
accessor and its untracked counterpart return the same result (`get` equals
`get_untracked`, `with` applied to any `f` equals `with_untracked`), every
`try*` form succeeds with a present result, and `get()` called any number of
times in sequence returns the identical construction-time snapshot. -/
theorem C2_fixed_accessors_coincide (σ T E O : Type) (t : Option T)
    (f : Option T → O) (w : σ) (reads : List σ) :
    (ElementMaybeSignal.Static t : ElementMaybeSignal σ T E).get w = .ok t ∧
    (ElementMaybeSignal.Static t : ElementMaybeSignal σ T E).get_untracked w
      = .ok t ∧
    (ElementMaybeSignal.Static t : ElementMaybeSignal σ T E).with_fn f w
      = .ok (f t) ∧
    (ElementMaybeSignal.Static t : ElementMaybeSignal σ T E).with_untracked f w
      = .ok (f t) ∧
    (ElementMaybeSignal.Static t : ElementMaybeSignal σ T E).try_get w
      = .ok (some t) ∧
    (ElementMaybeSignal.Static t : ElementMaybeSignal σ T E).try_get_untracked w
      = .ok (some t) ∧
    (ElementMaybeSignal.Static t : ElementMaybeSignal σ T E).try_with f w
      = .ok (some (f t)) ∧
    (ElementMaybeSignal.Static t :
        ElementMaybeSignal σ T E).try_with_untracked f w
      = .ok (some (f t)) ∧
    reads.map (ElementMaybeSignal.Static t : ElementMaybeSignal σ T E).get
      = reads.map fun _ => .ok t := by
  refine ⟨rfl, rfl, rfl, rfl, rfl, rfl, rfl, rfl, ?_⟩
  induction reads with
  | nil => rfl
  | cons a l ih => simpa [ElementMaybeSignal.get] using ih

/-- C7: `From<T>` yields exactly `Static(Some(v))` and `From<Option<T>>`
yields exactly `Static(o)` (absence preserved); every subsequent read, at
every world, tracked or untracked, returns that construction-time value. -/
theorem C7_value_conversions (σ T E : Type) (v : T) (o : Option T) (w : σ) :
    (ElementMaybeSignal.from_value v : ElementMaybeSignal σ T E)
      = .Static (some v) ∧
    (ElementMaybeSignal.from_option o : ElementMaybeSignal σ T E)
      = .Static o ∧
    (ElementMaybeSignal.from_value v : ElementMaybeSignal σ T E).get w
      = .ok (some v) ∧
    (ElementMaybeSignal.from_value v :
        ElementMaybeSignal σ T E).get_untracked w
      = .ok (some v) ∧
    (ElementMaybeSignal.from_option o : ElementMaybeSignal σ T E).get w
      = .ok o ∧
    (ElementMaybeSignal.from_option o :
        ElementMaybeSignal σ T E).get_untracked w
      = .ok o :=
  ⟨rfl, rfl, rfl, rfl, rfl, rfl⟩

/-- C10: the `Default` instance produces `Static(None)`; every read of it,
tracked or untracked, returns absence, and every `try*` form succeeds,
returning a present result that holds the absence value. -/
theorem C10_default_is_static_none (σ T E O : Type) (f : Option T → O)
    (w : σ) :
    (ElementMaybeSignal.default : ElementMaybeSignal σ T E) = .Static none ∧
    (ElementMaybeSignal.default : ElementMaybeSignal σ T E).get w
      = .ok none ∧
    (ElementMaybeSignal.default : ElementMaybeSignal σ T E).get_untracked w
      = .ok none ∧
    (ElementMaybeSignal.default : ElementMaybeSignal σ T E).with_fn f w
      = .ok (f none) ∧
    (ElementMaybeSignal.default : ElementMaybeSignal σ T E).with_untracked f w
      = .ok (f none) ∧
    (ElementMaybeSignal.default : ElementMaybeSignal σ T E).try_get w
      = .ok (some none) ∧
    (ElementMaybeSignal.default : ElementMaybeSignal σ T E).try_get_untracked w
      = .ok (some none) ∧
    (ElementMaybeSignal.default : ElementMaybeSignal σ T E).try_with f w
      = .ok (some (f none)) ∧
    (ElementMaybeSignal.default :
        ElementMaybeSignal σ T E).try_with_untracked f w
      = .ok (some (f none)) :=
  ⟨rfl, rfl, rfl, rfl, rfl, rfl, rfl, rfl, rfl⟩

/-- C3: cloning a `Static` (Fixed) reference yields a `Static` reference with
the same snapshot; cloning a `Dynamic` (Live) reference duplicates the signal
handle, not the value, so after any mutation of the underlying source cell
(i.e. at every world), a read through the clone returns the same current
value as a read through the original. -/
theorem C3_clone_preserves_variant_and_observation (σ T E : Type)
    (t : Option T) (s : Signal σ (Option T)) (c : ElementMaybeSignal σ T E)
    (hc : (ElementMaybeSignal.from_signal_option s :
            ElementMaybeSignal σ T E).clone = .ok c) :
    (ElementMaybeSignal.Static t : ElementMaybeSignal σ T E).clone
      = .ok (.Static t) ∧
    (ElementMaybeSignal.Dynamic s : ElementMaybeSignal σ T E).clone
      = .ok (.Dynamic s) ∧
    c = .Dynamic s ∧
    ∀ w : σ,
      c.get w
        = (ElementMaybeSignal.from_signal_option s :
            ElementMaybeSignal σ T E).get w ∧
      c.get_untracked w
        = (ElementMaybeSignal.from_signal_option s :
            ElementMaybeSignal σ T E).get_untracked w := by
  have h : ElementMaybeSignal.Dynamic s = c := by
    simpa [ElementMaybeSignal.from_signal_option, ElementMaybeSignal.clone]
      using hc
  subst h
  exact ⟨rfl, rfl, rfl, fun w => ⟨rfl, rfl⟩⟩

/-- Witness for C3 at a concrete live cell. -/
theorem C3_clone_witness :
    ((ElementMaybeSignal.from_signal_option natCell :
        ElementMaybeSignal (Option Nat) Nat Unit).clone
      = .ok (.Dynamic natCell)) ∧
    ((ElementMaybeSignal.Static (none : Option Nat) :
        ElementMaybeSignal (Option Nat) Nat Unit).clone = .ok (.Static none) ∧
     (ElementMaybeSignal.Dynamic natCell :
        ElementMaybeSignal (Option Nat) Nat Unit).clone
       = .ok (.Dynamic natCell) ∧
     (ElementMaybeSignal.Dynamic natCell : ElementMaybeSignal (Option Nat) Nat Unit)
       = .Dynamic natCell ∧
     ∀ w : Option Nat,
       (ElementMaybeSignal.Dynamic natCell :
          ElementMaybeSignal (Option Nat) Nat Unit).get w
         = (ElementMaybeSignal.from_signal_option natCell :
             ElementMaybeSignal (Option Nat) Nat Unit).get w ∧
       (ElementMaybeSignal.Dynamic natCell :
          ElementMaybeSignal (Option Nat) Nat Unit).get_untracked w
         = (ElementMaybeSignal.from_signal_option natCell :
             ElementMaybeSignal (Option Nat) Nat Unit).get_untracked w) :=
  ⟨rfl, C3_clone_preserves_variant_and_observation (Option Nat) Nat Unit
    none natCell (.Dynamic natCell) rfl⟩

/-- C4: converting a static selector string performs the lookup exactly once,
synchronously, at construction time — the reference is literally
`Static (lookup target)` against the construction-time environment — and
every later read, at every world, returns that frozen result; a failed lookup
and a lookup that legitimately matches nothing both freeze to the same
absence, with no distinguishable error. -/
theorem C4_static_selector_eager_frozen (σ Elem E : Type)
    (env envErr envEmpty : LookupEnv Elem) (target tErr tEmpty : String)
    (w w' : σ)
    (herr : envErr.query tErr = .error ())
    (hempty : envEmpty.query tEmpty = .ok none) :
    (ElementMaybeSignal.from_str env target : ElementMaybeSignal σ Elem E)
      = .Static (selectorLookup env target) ∧
    (ElementMaybeSignal.from_string env target : ElementMaybeSignal σ Elem E)
      = .Static (selectorLookup env target) ∧
    (ElementMaybeSignal.from_str env target :
        ElementMaybeSignal σ Elem E).get w
      = .ok (selectorLookup env target) ∧
    (ElementMaybeSignal.from_str env target :
        ElementMaybeSignal σ Elem E).get_untracked w
      = .ok (selectorLookup env target) ∧
    (ElementMaybeSignal.from_str env target :
        ElementMaybeSignal σ Elem E).get w
      = (ElementMaybeSignal.from_str env target :
          ElementMaybeSignal σ Elem E).get w' ∧
    (ElementMaybeSignal.from_str envErr tErr : ElementMaybeSignal σ Elem E)
      = .Static none ∧
    (ElementMaybeSignal.from_str envEmpty tEmpty : ElementMaybeSignal σ Elem E)
      = .Static none := by
  refine ⟨rfl, rfl, rfl, rfl, rfl, ?_, ?_⟩
  · simp [ElementMaybeSignal.from_str, selectorLookup, unwrapOrDefault, herr]
  · simp [ElementMaybeSignal.from_str, selectorLookup, unwrapOrDefault, hempty]

/-- Witness for C4: a failing environment and the sample environment at a
selector matching nothing. -/
theorem C4_static_selector_witness :
    (errEnv.query "#a" = .error () ∧ sampleEnv.query "#b" = .ok none) ∧
    ((ElementMaybeSignal.from_str sampleEnv "#a" :
        ElementMaybeSignal Unit Nat Unit)
      = .Static (selectorLookup sampleEnv "#a") ∧
     (ElementMaybeSignal.from_string sampleEnv "#a" :
        ElementMaybeSignal Unit Nat Unit)
      = .Static (selectorLookup sampleEnv "#a") ∧
     (ElementMaybeSignal.from_str sampleEnv "#a" :
        ElementMaybeSignal Unit Nat Unit).get ()
      = .ok (selectorLookup sampleEnv "#a") ∧
     (ElementMaybeSignal.from_str sampleEnv "#a" :
        ElementMaybeSignal Unit Nat Unit).get_untracked ()
      = .ok (selectorLookup sampleEnv "#a") ∧
     (ElementMaybeSignal.from_str sampleEnv "#a" :
        ElementMaybeSignal Unit Nat Unit).get ()
      = (ElementMaybeSignal.from_str sampleEnv "#a" :
          ElementMaybeSignal Unit Nat Unit).get () ∧
     (ElementMaybeSignal.from_str errEnv "#a" :
        ElementMaybeSignal Unit Nat Unit) = .Static none ∧
     (ElementMaybeSignal.from_str sampleEnv "#b" :
        ElementMaybeSignal Unit Nat Unit) = .Static none) :=
  ⟨⟨rfl, rfl⟩,
    C4_static_selector_eager_frozen Unit Nat Unit sampleEnv errEnv sampleEnv
      "#a" "#a" "#b" () () rfl rfl⟩

/-- C5: the `try*` accessor forms never fail: on a `Static` (Fixed) reference
they always return a present result, and on a `Dynamic` (Live) reference
whose owning reactive scope has been disposed they return the explicit
no-value signal instead of aborting, whereas the corresponding non-`try`
forms panic in that situation. -/
theorem C5_try_forms_absorb_disposal (σ T E O : Type) (t : Option T)
    (s : Signal σ (Option T)) (f : Option T → O) (w : σ)
    (hd : s.disposed w = true) :
    (ElementMaybeSignal.Static t : ElementMaybeSignal σ T E).try_get w
      = .ok (some t) ∧
    (ElementMaybeSignal.Static t : ElementMaybeSignal σ T E).try_get_untracked w
      = .ok (some t) ∧
    (ElementMaybeSignal.Static t : ElementMaybeSignal σ T E).try_with f w
      = .ok (some (f t)) ∧
    (ElementMaybeSignal.Static t :
        ElementMaybeSignal σ T E).try_with_untracked f w
      = .ok (some (f t)) ∧
    (ElementMaybeSignal.Dynamic s : ElementMaybeSignal σ T E).try_get w
      = .ok none ∧
    (ElementMaybeSignal.Dynamic s :
        ElementMaybeSignal σ T E).try_get_untracked w
      = .ok none ∧
    (ElementMaybeSignal.Dynamic s : ElementMaybeSignal σ T E).try_with f w
      = .ok none ∧
    (ElementMaybeSignal.Dynamic s :
        ElementMaybeSignal σ T E).try_with_untracked f w
      = .ok none ∧
    (ElementMaybeSignal.Dynamic s : ElementMaybeSignal σ T E).get w
      = .disposedPanic ∧
    (ElementMaybeSignal.Dynamic s : ElementMaybeSignal σ T E).get_untracked w
      = .disposedPanic ∧
    (ElementMaybeSignal.Dynamic s : ElementMaybeSignal σ T E).with_fn f w
      = .disposedPanic ∧
    (ElementMaybeSignal.Dynamic s : ElementMaybeSignal σ T E).with_untracked f w
      = .disposedPanic := by
  refine ⟨rfl, rfl, rfl, rfl, ?_, ?_, ?_, ?_, ?_, ?_, ?_, ?_⟩ <;>
    simp [ElementMaybeSignal.try_get, ElementMaybeSignal.try_get_untracked,
      ElementMaybeSignal.try_with, ElementMaybeSignal.try_with_untracked,
      ElementMaybeSignal.get, ElementMaybeSignal.get_untracked,
      ElementMaybeSignal.with_fn, ElementMaybeSignal.with_untracked,
      Signal.try_get, Signal.try_get_untracked, Signal.try_with,
      Signal.try_with_untracked, Signal.get, Signal.get_untracked,
      Signal.with_fn, Signal.with_untracked, hd]

/-- Witness for C5 at a concrete disposed cell. -/
theorem C5_try_forms_witness :
    (disposedCell.disposed () = true) ∧
    ((ElementMaybeSignal.Static (some 7) :
        ElementMaybeSignal Unit Nat Unit).try_get () = .ok (some (some 7)) ∧
     (ElementMaybeSignal.Static (some 7) :
        ElementMaybeSignal Unit Nat Unit).try_get_untracked ()
       = .ok (some (some 7)) ∧
     (ElementMaybeSignal.Static (some 7) :
        ElementMaybeSignal Unit Nat Unit).try_with Option.isSome ()
       = .ok (some true) ∧
     (ElementMaybeSignal.Static (some 7) :
        ElementMaybeSignal Unit Nat Unit).try_with_untracked Option.isSome ()
       = .ok (some true) ∧
     (ElementMaybeSignal.Dynamic disposedCell :
        ElementMaybeSignal Unit Nat Unit).try_get () = .ok none ∧
     (ElementMaybeSignal.Dynamic disposedCell :
        ElementMaybeSignal Unit Nat Unit).try_get_untracked () = .ok none ∧
     (ElementMaybeSignal.Dynamic disposedCell :
        ElementMaybeSignal Unit Nat Unit).try_with Option.isSome () = .ok none ∧
     (ElementMaybeSignal.Dynamic disposedCell :
        ElementMaybeSignal Unit Nat Unit).try_with_untracked Option.isSome ()
       = .ok none ∧
     (ElementMaybeSignal.Dynamic disposedCell :
        ElementMaybeSignal Unit Nat Unit).get () = .disposedPanic ∧
     (ElementMaybeSignal.Dynamic disposedCell :
        ElementMaybeSignal Unit Nat Unit).get_untracked () = .disposedPanic ∧
     (ElementMaybeSignal.Dynamic disposedCell :
        ElementMaybeSignal Unit Nat Unit).with_fn Option.isSome ()
       = .disposedPanic ∧
     (ElementMaybeSignal.Dynamic disposedCell :
        ElementMaybeSignal Unit Nat Unit).with_untracked Option.isSome ()
       = .disposedPanic) :=
  ⟨rfl, C5_try_forms_absorb_disposal Unit Nat Unit Bool (some 7) disposedCell
    Option.isSome () rfl⟩

/-- C6: the reference built from a forward-declared handle (`NodeRef`) is a
`Dynamic` derived cell: every read before any binding exists yields absence;
every read, tracked or untracked, after the mounting layer binds the handle
yields the bound instance converted to the requested target capability type;
and rebinding bumps the cell's version exactly like any other cell write, so
a tracked dependent that observed the pre-bind version is notified. -/
theorem C6_node_ref_live_binding (R T : Type) (conv : R → T)
    (w : NodeRefState R) (hunbound : w.binding = none) :
    (ElementMaybeSignal.from_node_ref conv).get w = .ok none ∧
    (ElementMaybeSignal.from_node_ref conv).get_untracked w = .ok none ∧
    (ElementMaybeSignal.from_node_ref conv).get
        (NodeRefState.init : NodeRefState R) = .ok none ∧
    ∀ (w' : NodeRefState R) (el : R),
      (ElementMaybeSignal.from_node_ref conv).get (w'.load el)
        = .ok (some (conv el)) ∧
      (ElementMaybeSignal.from_node_ref conv).get_untracked (w'.load el)
        = .ok (some (conv el)) ∧
      notifiedAt w'.version (w'.load el) := by
  refine ⟨?_, ?_, rfl, fun w' el => ⟨rfl, rfl, ?_⟩⟩
  · simp [ElementMaybeSignal.from_node_ref, ElementMaybeSignal.get,
      Signal.get, hunbound]
  · simp [ElementMaybeSignal.from_node_ref, ElementMaybeSignal.get_untracked,
      Signal.get_untracked, hunbound]
  · simp [notifiedAt, NodeRefState.load]

/-- Witness for C6 at the concrete unbound initial handle state. -/
theorem C6_node_ref_witness :
    ((NodeRefState.init : NodeRefState Nat).binding = none) ∧
    ((ElementMaybeSignal.from_node_ref Nat.succ).get
        (NodeRefState.init : NodeRefState Nat) = .ok none ∧
     (ElementMaybeSignal.from_node_ref Nat.succ).get_untracked
        (NodeRefState.init : NodeRefState Nat) = .ok none ∧
     (ElementMaybeSignal.from_node_ref Nat.succ).get
        (NodeRefState.init : NodeRefState Nat) = .ok none ∧
     ∀ (w' : NodeRefState Nat) (el : Nat),
       (ElementMaybeSignal.from_node_ref Nat.succ).get (w'.load el)
         = .ok (some (Nat.succ el)) ∧
       (ElementMaybeSignal.from_node_ref Nat.succ).get_untracked (w'.load el)
         = .ok (some (Nat.succ el)) ∧
       notifiedAt w'.version (w'.load el)) :=
  ⟨rfl, C6_node_ref_live_binding Nat Nat Nat.succ NodeRefState.init rfl⟩

/-- C8: the conversion from a reactive plain-resource cell yields a `Dynamic`
reference whose derived cell, at every world where the source cell is alive,
reads `Some` of the source cell's current value — never absence. -/
theorem C8_plain_cell_wrapped_in_some (σ T E : Type) (sig : Signal σ T)
    (w : σ) (halive : sig.disposed w = false) :
    (ElementMaybeSignal.from_signal sig : ElementMaybeSignal σ T E).get w
      = .ok (some (sig.value w)) ∧
    (ElementMaybeSignal.from_signal sig :
        ElementMaybeSignal σ T E).get_untracked w
      = .ok (some (sig.value w)) ∧
    (ElementMaybeSignal.from_signal sig : ElementMaybeSignal σ T E).get w
      ≠ .ok none := by
  refine ⟨?_, ?_, ?_⟩ <;>
    simp [ElementMaybeSignal.from_signal, ElementMaybeSignal.get,
      ElementMaybeSignal.get_untracked, Signal.get, Signal.get_untracked,
      halive]

/-- Witness for C8 at a concrete plain cell holding `5`. -/
theorem C8_plain_cell_witness :
    (plainCell.disposed 5 = false) ∧
    ((ElementMaybeSignal.from_signal plainCell :
        ElementMaybeSignal Nat Nat Unit).get 5 = .ok (some (plainCell.value 5)) ∧
     (ElementMaybeSignal.from_signal plainCell :
        ElementMaybeSignal Nat Nat Unit).get_untracked 5
       = .ok (some (plainCell.value 5)) ∧
     (ElementMaybeSignal.from_signal plainCell :
        ElementMaybeSignal Nat Nat Unit).get 5 ≠ .ok none) :=
  ⟨rfl, C8_plain_cell_wrapped_in_some Nat Nat Unit plainCell 5 rfl⟩

/-- C1: the reference built from a reactive string cell is `Dynamic` over a
memoized lookup cell: reading it returns the memo's cached lookup result; for
every write sequence the number of lookup executions is one plus the number
of writes that actually changed the string; a write equal to the current
string leaves the memo state (and so the lookup count) unchanged; a write of
a different string performs exactly one new lookup, whose result subsequent
reads of the reference return. -/
theorem C1_reactive_selector_memoized (Elem E : Type) (env : LookupEnv Elem)
    (s0 : String) (ws : List String) (w w' : String)
    (hEq : w = (memoRun (selectorLookup env) s0 ws).input)
    (hNe : w' ≠ (memoRun (selectorLookup env) s0 ws).input) :
    (ElementMaybeSignal.from_signal_string Elem E).get
        (memoRun (selectorLookup env) s0 ws)
      = .ok (memoRun (selectorLookup env) s0 ws).cached ∧
    (memoRun (selectorLookup env) s0 ws).execs = 1 + countChanges s0 ws ∧
    memoRun (selectorLookup env) s0 (ws ++ [w])
      = memoRun (selectorLookup env) s0 ws ∧
    (memoRun (selectorLookup env) s0 (ws ++ [w'])).execs
      = (memoRun (selectorLookup env) s0 ws).execs + 1 ∧
    (ElementMaybeSignal.from_signal_string Elem E).get
        (memoRun (selectorLookup env) s0 (ws ++ [w']))
      = .ok (selectorLookup env w') := by
  have hm : ∀ a, memoRun (selectorLookup env) s0 (ws ++ [a])
      = memoWrite (selectorLookup env) (memoRun (selectorLookup env) s0 ws) a :=
    fun a => memoSteps_append (selectorLookup env)
      (memoInit (selectorLookup env) s0) ws a
  refine ⟨rfl, ?_, ?_, ?_, ?_⟩
  · simpa [memoRun, memoInit] using
      memoSteps_execs (selectorLookup env) (memoInit (selectorLookup env) s0) ws
  · rw [hm w]
    simp only [memoWrite]
    rw [if_pos hEq]
  · rw [hm w']
    simp only [memoWrite]
    rw [if_neg hNe]
  · rw [hm w']
    simp only [memoWrite]
    rw [if_neg hNe]
    rfl

/-- Witness for C1: string cell starting at `"#a"`, rewritten to `"#a"`
(no change, no new lookup) and to `"#b"` (one new lookup). -/
theorem C1_reactive_selector_witness :
    ("#a" = (memoRun (selectorLookup sampleEnv) "#a" []).input) ∧
    ("#b" ≠ (memoRun (selectorLookup sampleEnv) "#a" []).input) ∧
    ((ElementMaybeSignal.from_signal_string Nat Unit).get
        (memoRun (selectorLookup sampleEnv) "#a" [])
      = .ok (memoRun (selectorLookup sampleEnv) "#a" []).cached ∧
     (memoRun (selectorLookup sampleEnv) "#a" []).execs
       = 1 + countChanges "#a" [] ∧
     memoRun (selectorLookup sampleEnv) "#a" ([] ++ ["#a"])
       = memoRun (selectorLookup sampleEnv) "#a" [] ∧
     (memoRun (selectorLookup sampleEnv) "#a" ([] ++ ["#b"])).execs
       = (memoRun (selectorLookup sampleEnv) "#a" []).execs + 1 ∧
     (ElementMaybeSignal.from_signal_string Nat Unit).get
         (memoRun (selectorLookup sampleEnv) "#a" ([] ++ ["#b"]))
       = .ok (selectorLookup sampleEnv "#b")) :=
  ⟨rfl, by decide,
    C1_reactive_selector_memoized Nat Unit sampleEnv "#a" [] "#a" "#b" rfl
      (by decide)⟩

/-- C9: every source conversion and `Default` produce a reference in the
`Static` or `Dynamic` variant, never the `_Phantom` marker arm; cloning
preserves the variant; and on a non-`_Phantom` reference no accessor (nor
`clone`) ever executes the `unreachable!()` branch guarding the marker arm. -/
theorem C9_no_phantom_no_transition (σ T E Elem R O : Type)
    (env : LookupEnv Elem) (target : String) (v : T) (o t : Option T)
    (s : Signal σ (Option T)) (sigT : Signal σ T) (conv : R → T)
    (f : Option T → O) (w : σ) (e : ElementMaybeSignal σ T E)
    (hnp : e.isPhantom = false) :
    (ElementMaybeSignal.default : ElementMaybeSignal σ T E).isPhantom
      = false ∧
    (ElementMaybeSignal.from_value v : ElementMaybeSignal σ T E).isPhantom
      = false ∧
    (ElementMaybeSignal.from_option o : ElementMaybeSignal σ T E).isPhantom
      = false ∧
    (ElementMaybeSignal.from_str env target :
        ElementMaybeSignal σ Elem E).isPhantom = false ∧
    (ElementMaybeSignal.from_string env target :
        ElementMaybeSignal σ Elem E).isPhantom = false ∧
    (ElementMaybeSignal.from_signal_string Elem E).isPhantom = false ∧
    (ElementMaybeSignal.from_signal_option s :
        ElementMaybeSignal σ T E).isPhantom = false ∧
    (ElementMaybeSignal.from_signal sigT :
        ElementMaybeSignal σ T E).isPhantom = false ∧
    (ElementMaybeSignal.from_node_ref conv :
        ElementMaybeSignal (NodeRefState R) T T).isPhantom = false ∧
    (ElementMaybeSignal.Static t : ElementMaybeSignal σ T E).clone
      = .ok (.Static t) ∧
    (ElementMaybeSignal.Dynamic s : ElementMaybeSignal σ T E).clone
      = .ok (.Dynamic s) ∧
    e.get w ≠ .unreachablePanic ∧
    e.get_untracked w ≠ .unreachablePanic ∧
    e.try_get w ≠ .unreachablePanic ∧
    e.try_get_untracked w ≠ .unreachablePanic ∧
    e.with_fn f w ≠ .unreachablePanic ∧
    e.with_untracked f w ≠ .unreachablePanic ∧
    e.try_with f w ≠ .unreachablePanic ∧
    e.try_with_untracked f w ≠ .unreachablePanic ∧
    e.clone ≠ .unreachablePanic := by
  refine ⟨rfl, rfl, rfl, rfl, rfl, rfl, rfl, rfl, rfl, rfl, rfl,
    ?_, ?_, ?_, ?_, ?_, ?_, ?_, ?_, ?_⟩ <;>
  · cases e with
    | Static t' =>
      simp [ElementMaybeSignal.get, ElementMaybeSignal.get_untracked,
        ElementMaybeSignal.try_get, ElementMaybeSignal.try_get_untracked,
        ElementMaybeSignal.with_fn, ElementMaybeSignal.with_untracked,
        ElementMaybeSignal.try_with, ElementMaybeSignal.try_with_untracked,
        ElementMaybeSignal.clone]
    | Dynamic s' =>
      cases h : s'.disposed w <;>
        simp [ElementMaybeSignal.get, ElementMaybeSignal.get_untracked,
          ElementMaybeSignal.try_get, ElementMaybeSignal.try_get_untracked,
          ElementMaybeSignal.with_fn, ElementMaybeSignal.with_untracked,
          ElementMaybeSignal.try_with, ElementMaybeSignal.try_with_untracked,
          ElementMaybeSignal.clone, Signal.get, Signal.get_untracked,
          Signal.with_fn, Signal.with_untracked, h]
    | _Phantom => simp [ElementMaybeSignal.isPhantom] at hnp

/-- Witness for C9 at concrete instantiations of every conversion. -/
theorem C9_no_phantom_witness :
    ((ElementMaybeSignal.Static (some 1) :
        ElementMaybeSignal Unit Nat Unit).isPhantom = false) ∧
    ((ElementMaybeSignal.default : ElementMaybeSignal Unit Nat Unit).isPhantom
      = false ∧
     (ElementMaybeSignal.from_value 3 :
        ElementMaybeSignal Unit Nat Unit).isPhantom = false ∧
     (ElementMaybeSignal.from_option none :
        ElementMaybeSignal Unit Nat Unit).isPhantom = false ∧
     (ElementMaybeSignal.from_str sampleEnv "#a" :
        ElementMaybeSignal Unit Nat Unit).isPhantom = false ∧
     (ElementMaybeSignal.from_string sampleEnv "#a" :
        ElementMaybeSignal Unit Nat Unit).isPhantom = false ∧
     (ElementMaybeSignal.from_signal_string Nat Unit).isPhantom = false ∧
     (ElementMaybeSignal.from_signal_option disposedCell :
        ElementMaybeSignal Unit Nat Unit).isPhantom = false ∧
     (ElementMaybeSignal.from_signal ⟨fun _ => false, fun _ => 0⟩ :
        ElementMaybeSignal Unit Nat Unit).isPhantom = false ∧
     (ElementMaybeSignal.from_node_ref Nat.succ :
        ElementMaybeSignal (NodeRefState Nat) Nat Nat).isPhantom = false ∧
     (ElementMaybeSignal.Static (some 1) :
        ElementMaybeSignal Unit Nat Unit).clone = .ok (.Static (some 1)) ∧
     (ElementMaybeSignal.Dynamic disposedCell :
        ElementMaybeSignal Unit Nat Unit).clone = .ok (.Dynamic disposedCell) ∧
     (ElementMaybeSignal.Static (some 1) :
        ElementMaybeSignal Unit Nat Unit).get () ≠ .unreachablePanic ∧
     (ElementMaybeSignal.Static (some 1) :
        ElementMaybeSignal Unit Nat Unit).get_untracked ()
       ≠ .unreachablePanic ∧
     (ElementMaybeSignal.Static (some 1) :
        ElementMaybeSignal Unit Nat Unit).try_get () ≠ .unreachablePanic ∧
     (ElementMaybeSignal.Static (some 1) :
        ElementMaybeSignal Unit Nat Unit).try_get_untracked ()
       ≠ .unreachablePanic ∧
     (ElementMaybeSignal.Static (some 1) :
        ElementMaybeSignal Unit Nat Unit).with_fn Option.isSome ()
       ≠ .unreachablePanic ∧
     (ElementMaybeSignal.Static (some 1) :
        ElementMaybeSignal Unit Nat Unit).with_untracked Option.isSome ()
       ≠ .unreachablePanic ∧
     (ElementMaybeSignal.Static (some 1) :
        ElementMaybeSignal Unit Nat Unit).try_with Option.isSome ()
       ≠ .unreachablePanic ∧
     (ElementMaybeSignal.Static (some 1) :
        ElementMaybeSignal Unit Nat Unit).try_with_untracked Option.isSome ()
       ≠ .unreachablePanic ∧
     (ElementMaybeSignal.Static (some 1) :
        ElementMaybeSignal Unit Nat Unit).clone ≠ .unreachablePanic) :=
  ⟨rfl, C9_no_phantom_no_transition Unit Nat Unit Nat Nat Bool sampleEnv "#a"
    3 none (some 1) disposedCell ⟨fun _ => false, fun _ => 0⟩ Nat.succ
    Option.isSome () (.Static (some 1)) rfl⟩

end LeptosUse
